import Mathlib

/-!
Verification development for the `entropy-network` repository: a driver
(`run_entropy.cpp`) that integrates a three-component ODE state vector
(trajectory coordinate, its derivative, entropy per nucleon) with a 4th-order
Adams-Bashforth stepper, delegating composition evolution and thermodynamics
to an external nuclear-reaction-network engine, plus the user-supplied
trajectory model (`my_hydro_helper.cpp`).

Numbers are modelled as exact rationals `ℚ` (the C++ uses IEEE doubles; all
claims here concern algebraic structure, control flow and frame effects, not
rounding).  External collaborators — the network engine's `evolve`,
`entropy_generation_rate`, `Libnucnet__Zone__updateTimeStep` recommendation,
the 1-D temperature root solve, and the boost `odeint` stepper — are modelled
as opaque function parameters (an `Env`), exactly as the specification's §6
collaborator contract treats them.

`boost::any` values and `boost::any_cast<double>` are modelled explicitly,
because `my_hydro_helper.cpp` applies `boost::any_cast<double>` directly to
the literal key strings `nnt::s_TAU` / `nnt::s_RHO_0` in two functions
(instead of to `param_map[...]`), which throws `boost::bad_any_cast` at run
time.
-/

namespace EntropyNet

/-- Model of a `boost::any` value as stored in `my_user::param_map_t`
(`std::map<std::string, boost::any>`).  A `const char *` string literal
implicitly converts to a `boost::any` holding the pointer, which is the
`strVal` case; `std::map::operator[]` on a missing key default-constructs an
empty `boost::any`, which is the `empty` case. -/
inductive BAny where
  | doubleVal : ℚ → BAny
  | strVal : String → BAny
  | empty : BAny
deriving DecidableEq

/-- `boost::any_cast<double>` : succeeds only on a `boost::any` that holds a
double; on anything else (a stored `const char *`, an empty any) it throws
`boost::bad_any_cast`. -/
def anyCastDouble : BAny → Except String ℚ
  | BAny.doubleVal q => Except.ok q
  | _ => Except.error "boost bad_any_cast"

/-- The immutable parameter set built by `get_input` /
`my_user::set_user_defined_options`: the scalar entries of `param_map`. -/
structure Params where
  t9_0 : ℚ
  rho_0 : ℚ
  rho_1 : ℚ
  tau : ℚ
  delta : ℚ
  root_factor : ℚ
  rho_2 : ℚ
deriving DecidableEq

/-- The scalar keys of `param_map` (from `nnt/string_defs.h` and
`my_hydro_helper.h`: `S_DELTA_TRAJ = "delta"`, `S_RHO_1 = "rho_1"`,
`S_RHO_2 = "rho_2"`, `S_ROOT_FACTOR = "root_factor"`, and the `nnt::` keys
`s_T9_0`, `s_RHO_0`, `s_TAU`).  The C++ keys are strings; they are modelled
as an enumeration, with `keyString` recovering the literal text — which is
what `boost::any_cast<double>( nnt::s_TAU )` etc. operate on. -/
inductive ParamKey where
  | kT9_0 | kRHO_0 | kRHO_1 | kTAU | kDELTA | kROOT_FACTOR | kRHO_2
deriving DecidableEq

/-- The literal text of each key string constant. -/
def keyString : ParamKey → String
  | ParamKey.kT9_0 => "t9_0"
  | ParamKey.kRHO_0 => "rho_0"
  | ParamKey.kRHO_1 => "rho_1"
  | ParamKey.kTAU => "tau"
  | ParamKey.kDELTA => "delta"
  | ParamKey.kROOT_FACTOR => "root_factor"
  | ParamKey.kRHO_2 => "rho_2"

/-- `param_map[k]` for the scalar keys: returns the stored double. -/
def paramLookup (p : Params) : ParamKey → BAny
  | ParamKey.kT9_0 => BAny.doubleVal p.t9_0
  | ParamKey.kRHO_0 => BAny.doubleVal p.rho_0
  | ParamKey.kRHO_1 => BAny.doubleVal p.rho_1
  | ParamKey.kTAU => BAny.doubleVal p.tau
  | ParamKey.kDELTA => BAny.doubleVal p.delta
  | ParamKey.kROOT_FACTOR => BAny.doubleVal p.root_factor
  | ParamKey.kRHO_2 => BAny.doubleVal p.rho_2

/-- `my_user::set_user_defined_options` (my_hydro_helper.cpp:102-126): stores
the six user options, exits fatally when `rho_1 > rho_0`, and otherwise
stores `rho_2 = rho_0 - rho_1`. -/
def set_user_defined_options (t9v rho0v rho1v tauv deltav rfv : ℚ) :
    Except String Params :=
  if rho1v > rho0v then Except.error "rho_1 must be less than rho_0."
  else Except.ok
    { t9_0 := t9v, rho_0 := rho0v, rho_1 := rho1v, tau := tauv,
      delta := deltav, root_factor := rfv, rho_2 := rho0v - rho1v }

/-- The default option values of `get_user_defined_descriptions`
(my_hydro_helper.cpp:48-96): T9_0 = 10, RHO_0 = 1e8, RHO_1 = 9e7,
TAU = 0.1, DELTA_TRAJ = 0.1, ROOT_FACTOR = 1.001, and the derived
RHO_2 = 1e7. -/
def defaultParams : Params :=
  { t9_0 := 10, rho_0 := 10 ^ 8, rho_1 := 9 * 10 ^ 7, tau := 1 / 10,
    delta := 1 / 10, root_factor := 1001 / 1000, rho_2 := 10 ^ 7 }

/-- `my_user::initialize_state` (my_hydro_helper.cpp:132-156).  Sets
`x[0] = 1` and computes
`x[1] = x[0]^4 * (rho_1 / tau' + 2 rho_2 / delta) / (3 rho_0')` — where the
source reads `tau'` as `boost::any_cast<double>( nnt::s_TAU )` and `rho_0'`
as `boost::any_cast<double>( nnt::s_RHO_0 )`: the casts are applied to the
literal key strings themselves, not to `param_map[...]`, so each of those two
casts throws `boost::bad_any_cast`.  The function is modelled as
`Except`-valued; the returned pair is `(x[0], x[1])` (the source leaves
`x[2]` untouched). -/
def initial_state (p : Params) : Except String (ℚ × ℚ) := do
  let x0 : ℚ := 1
  let rho1 ← anyCastDouble (paramLookup p ParamKey.kRHO_1)
  let tauLit ← anyCastDouble (BAny.strVal (keyString ParamKey.kTAU))
  let rho2 ← anyCastDouble (paramLookup p ParamKey.kRHO_2)
  let deltav ← anyCastDouble (paramLookup p ParamKey.kDELTA)
  let rho0Lit ← anyCastDouble (BAny.strVal (keyString ParamKey.kRHO_0))
  Except.ok (x0, x0 ^ 4 * (rho1 / tauLit + 2 * rho2 / deltav) / (3 * rho0Lit))

/-- `my_user::rho_function` (my_hydro_helper.cpp:220-226):
`rho_0 / gsl_pow_3(x[0])`, with a well-formed lookup
`boost::any_cast<double>( param_map[nnt::s_RHO_0] )`.  The division is
unchecked in the source (IEEE: `x[0] = 0` yields an infinity, no error); the
rational model is likewise total. -/
def rho_function (p : Params) (x : Fin 3 → ℚ) : Except String ℚ := do
  let rho0 ← anyCastDouble (paramLookup p ParamKey.kRHO_0)
  Except.ok (rho0 / (x 0) ^ 3)

/-- The closed-form value computed by `rho_function`. -/
def rhoVal (p : Params) (x : Fin 3 → ℚ) : ℚ :=
  p.rho_0 / (x 0) ^ 3

/-- A state vector whose trajectory coordinate is `a` (helper for stating
monotonicity of the density in `x[0]`). -/
def stX (a : ℚ) : Fin 3 → ℚ := ![a, 0, 0]

/-- Modelled from the spec: `density(params, x) -> rho`: `rho_0 / x[0]^3`;
"Fails (domain error) if `x[0] == 0`."  This is the specification's claimed
behaviour, written as a checked partial function, to be compared with the
source's `rho_function` (which performs no such check). -/
def density_spec (p : Params) (x : Fin 3 → ℚ) : Option ℚ :=
  if x 0 = 0 then none else some (p.rho_0 / (x 0) ^ 3)

/-- `my_user::acceleration` (my_hydro_helper.cpp:162-214).  The function
first assigns the scratch value to `x[2]` and then returns
`x[1] / (3 * param_map[tau])`.  The `x[2]` assignment's right-hand side
contains `boost::any_cast<double>( nnt::s_TAU )` (line 178) and
`boost::any_cast<double>( nnt::s_RHO_0 )` (line 209) applied to the literal
key strings — every operand of the arithmetic expression is evaluated
(no short-circuiting), so under any operand order the statement throws
`boost::bad_any_cast` before `x[2]` is written and before the return
statement runs.  (The statement is also parenthesis-unbalanced in the
source — four unclosed `(` — so the grouping below is a best-effort reading
of the driving/restoring brackets; it is irrelevant to the result because
the failing casts occur in every reading.)  `rexp` models `std::exp`.
The result pair is (state vector after the `x[2]` write, return value). -/
def acceleration (rexp : ℚ → ℚ) (p : Params) (x : Fin 3 → ℚ) (time : ℚ) :
    Except String ((Fin 3 → ℚ) × ℚ) := do
  let rho1 ← anyCastDouble (paramLookup p ParamKey.kRHO_1)
  let tauLit ← anyCastDouble (BAny.strVal (keyString ParamKey.kTAU))
  let tauOk1 ← anyCastDouble (paramLookup p ParamKey.kTAU)
  let rho2 ← anyCastDouble (paramLookup p ParamKey.kRHO_2)
  let deltav ← anyCastDouble (paramLookup p ParamKey.kDELTA)
  let tauLit2 ← anyCastDouble (BAny.strVal (keyString ParamKey.kTAU))
  let tauOk2 ← anyCastDouble (paramLookup p ParamKey.kTAU)
  let rho0Lit ← anyCastDouble (BAny.strVal (keyString ParamKey.kRHO_0))
  let scratch : ℚ :=
    (x 0) ^ 3 *
      (4 * x 1 * (rho1 / tauLit * rexp (-time / tauOk1) + 2 * rho2 / deltav)
        - x 0 * (rho1 / tauLit2 ^ 2 *
            (rexp (-time / tauOk2) + 6 * rho2 / deltav ^ 2)))
      / (3 * rho0Lit)
  let x' := Function.update x 2 scratch
  let tauRet ← anyCastDouble (paramLookup p ParamKey.kTAU)
  Except.ok (x', x 1 / (3 * tauRet))

/-- C9: `set_user_defined_options` reports and exits (fails fatally) exactly
when `rho_1 > rho_0`; on success the stored parameter set satisfies
`rho_1 ≤ rho_0` and `rho_1 + rho_2 = rho_0` (since it stores
`rho_2 = rho_0 - rho_1`). -/
theorem set_user_defined_options_iff (t9v rho0v rho1v tauv deltav rfv : ℚ) :
    ((∃ e, set_user_defined_options t9v rho0v rho1v tauv deltav rfv =
        Except.error e) ↔ rho0v < rho1v)
    ∧ ∀ p, set_user_defined_options t9v rho0v rho1v tauv deltav rfv =
        Except.ok p →
      p.rho_1 ≤ p.rho_0 ∧ p.rho_1 + p.rho_2 = p.rho_0 := by
  unfold set_user_defined_options
  by_cases h : rho1v > rho0v
  · rw [if_pos h]
    exact ⟨⟨fun _ => h, fun _ => ⟨_, rfl⟩⟩, fun p hp => by cases hp⟩
  · rw [if_neg h]
    refine ⟨⟨?_, fun hlt => absurd hlt h⟩, ?_⟩
    · rintro ⟨e, he⟩
      cases he
    · rintro p hp
      cases hp
      exact ⟨not_lt.mp h, by ring⟩

/-- Witness for C9: at the default option values (`rho_1 = 9e7 ≤ 1e8 =
rho_0`) configuration succeeds and yields exactly `defaultParams`, whose
amplitudes satisfy the invariant. -/
theorem set_user_defined_options_iff_witness :
    defaultParams.rho_1 ≤ defaultParams.rho_0
    ∧ defaultParams.rho_1 + defaultParams.rho_2 = defaultParams.rho_0 :=
  (set_user_defined_options_iff 10 (10 ^ 8) (9 * 10 ^ 7) (1 / 10) (1 / 10)
    (1001 / 1000)).2 defaultParams
    (by norm_num [set_user_defined_options, defaultParams])

/-- C3: `my_user::initialize_state` never produces `x[1]`: for every
parameter set the call throws `boost::bad_any_cast`, because the source
applies `boost::any_cast<double>` to the literal strings `nnt::s_TAU` and
`nnt::s_RHO_0` themselves instead of to `param_map[...]`
(my_hydro_helper.cpp:145,154).  In particular it fails at the default
(perfectly well-formed) parameter set, where the claim says it returns
`x[0] = 1` and a finite `x[1]`. -/
theorem initial_state_always_fails :
    (∀ p, initial_state p = Except.error "boost bad_any_cast")
    ∧ initial_state defaultParams = Except.error "boost bad_any_cast" :=
  ⟨fun _ => rfl, rfl⟩

/-- C8: `my_user::acceleration` never returns `x[1] / (3 tau)`: every call
throws `boost::bad_any_cast` while evaluating the `x[2]` scratch expression
(which casts the literal strings `nnt::s_TAU` and `nnt::s_RHO_0` to double,
my_hydro_helper.cpp:178,194,209), before `x[2]` is written and before the
return statement runs.  Stated for every model of `std::exp`, every
parameter set, state and time, and instantiated at the default parameters,
the unit state and time 0. -/
theorem acceleration_always_fails :
    (∀ rexp p x t, acceleration rexp p x t =
        Except.error "boost bad_any_cast")
    ∧ acceleration id defaultParams (stX 1) 0 =
        Except.error "boost bad_any_cast" :=
  ⟨fun _ _ _ _ => rfl, rfl⟩

/-- C7 counterexample: at `x[0] = 0` the spec-modelled `density` fails with
a domain error (`none`), but the source's `rho_function` takes no error
path at all — its one `boost::any_cast` succeeds and the unchecked division
is performed (IEEE: an infinity; rational model: the total-division junk
value), the run continuing. -/
theorem rho_function_no_domain_error :
    density_spec defaultParams (stX 0) = none
    ∧ rho_function defaultParams (stX 0) = Except.ok 0 := by
  exact ⟨by norm_num [density_spec, stX],
    by norm_num [rho_function, paramLookup, anyCastDouble, stX, bind, Except.bind]⟩

/-- C7 (amended): `rho_function` always returns `rho_0 / x[0]^3` (no domain
check, no failure path); at `x[0] = 1` this is `rho_0`; and for `rho_0 > 0`
the density is strictly decreasing in the trajectory coordinate on
`x[0] > 0`. -/
theorem rho_function_closed_form (p : Params) (x : Fin 3 → ℚ) (a b : ℚ) :
    rho_function p x = Except.ok (rhoVal p x)
    ∧ (x 0 = 1 → rho_function p x = Except.ok p.rho_0)
    ∧ (0 < p.rho_0 → 0 < a → a < b →
        rhoVal p (stX b) < rhoVal p (stX a)) := by
  refine ⟨rfl, fun h1 => ?_, fun hrho ha hab => ?_⟩
  · show Except.ok (p.rho_0 / (x 0) ^ 3) = _
    rw [h1]
    norm_num
  · show p.rho_0 / (stX b 0) ^ 3 < p.rho_0 / (stX a 0) ^ 3
    have hsb : stX b 0 = b := rfl
    have hsa : stX a 0 = a := rfl
    rw [hsb, hsa]
    exact div_lt_div_of_pos_left hrho (pow_pos ha 3)
      (pow_lt_pow_left₀ hab ha.le (by norm_num))

/-- Witness for C7: at the default parameters, density at `x[0] = 1` is
`rho_0 = 1e8`, and the density at `x[0] = 2` is below the density at
`x[0] = 1`. -/
theorem rho_function_closed_form_witness :
    rho_function defaultParams (stX 1) = Except.ok defaultParams.rho_0
    ∧ rhoVal defaultParams (stX 2) < rhoVal defaultParams (stX 1) :=
  ⟨(rho_function_closed_form defaultParams (stX 1) 1 2).2.1 rfl,
   (rho_function_closed_form defaultParams (stX 1) 1 2).2.2
     (by norm_num [defaultParams]) (by norm_num) (by norm_num)⟩

/-- The zone: the mutable physical state owned by the network engine — the
string-keyed scalar properties the core reads and writes (`s_T9`, `s_TIME`,
`s_DTIME`, `s_RHO`, `s_ENTROPY_PER_NUCLEON`, and the `"x"` pair written by
the driver), plus the engine-side composition state (the abundances and
abundance-changes vectors of `Libnucnet__Zone`). -/
structure Zone where
  t9 : ℚ
  time : ℚ
  dtime : ℚ
  rho : ℚ
  entropy : ℚ
  xProp0 : ℚ
  xProp1 : ℚ
  abundances : List ℚ
  abundanceChanges : List ℚ
deriving DecidableEq

/-- The function-valued properties attached to the zone by `main`
(run_entropy.cpp:731-849) and invoked by `entropy_generation_rhs` through
`zone.getFunction(...)`, modelled as opaque strategies exactly as the spec's
§6 collaborator contract treats them: the density function, the temperature
root solve (a function of the zone it reads), the network engine's `evolve`
(returns the new abundances and abundance-changes it writes in place), the
entropy-generation rate, the acceleration function, and the optional
observer (whose C++ effect is printing only). -/
structure RhsFunctions where
  rhoFunc : (Fin 3 → ℚ) → ℚ
  t9Func : Zone → ℚ
  evolveFunc : Zone → ℚ → List ℚ × List ℚ
  entropyGenFunc : Zone → ℚ
  accFunc : (Fin 3 → ℚ) → ℚ → ℚ
  observerFunc : Option ((Fin 3 → ℚ) → (Fin 3 → ℚ) → ℚ → Unit)

/-- `entropy_generation_rhs::operator()` (run_entropy.cpp:170-259), in
source order:
snapshot the abundances and abundance-changes
(`Libnucnet__Zone__getAbundances` returns a fresh copy), save `d_t9_old`,
compute `d_dt = d_t - zone[time]` and store it as `dtime`, push `x[2]` into
the entropy property, push the density function's value into `rho`, push the
temperature solve's value into `t9`, invoke `evolve` with `(view, d_dt)`,
set `dxdt = (x[1], acceleration(x, t), entropy_generation_rate)`, invoke the
observer if attached, then write the abundance snapshots back and restore
`t9` to `d_t9_old`.  Returns (zone after the call, dxdt). -/
def entropy_generation_rhs_call (fns : RhsFunctions) (z : Zone)
    (x : Fin 3 → ℚ) (d_t : ℚ) : Zone × (Fin 3 → ℚ) :=
  let p_abundances := z.abundances
  let p_abundance_changes := z.abundanceChanges
  let d_t9_old := z.t9
  let d_dt := d_t - z.time
  let z1 := { z with dtime := d_dt }
  let z2 := { z1 with entropy := x 2 }
  let z3 := { z2 with rho := fns.rhoFunc x }
  let z4 := { z3 with t9 := fns.t9Func z3 }
  let evolved := fns.evolveFunc z4 d_dt
  let z5 := { z4 with abundances := evolved.1, abundanceChanges := evolved.2 }
  let dxdt0 := x 1
  let dxdt1 := fns.accFunc x d_t
  let d_entropy_generation := fns.entropyGenFunc z5
  let dxdt : Fin 3 → ℚ := ![dxdt0, dxdt1, d_entropy_generation]
  let _ := match fns.observerFunc with
    | some f => f x dxdt d_t
    | none => ()
  let z6 := { z5 with abundances := p_abundances }
  let z7 := { z6 with abundanceChanges := p_abundance_changes }
  let z8 := { z7 with t9 := d_t9_old }
  (z8, dxdt)

/-- C1: for every attached strategy set, zone, state vector and time, the
zone's committed temperature property after `entropy_generation_rhs`'s call
operator returns equals its value before the call — the evaluator saves
`d_t9_old` first and restores it last, even though it pushes the solved
temperature into the zone mid-call. -/
theorem rhs_call_preserves_t9 (fns : RhsFunctions) (z : Zone)
    (x : Fin 3 → ℚ) (t : ℚ) :
    (entropy_generation_rhs_call fns z x t).1.t9 = z.t9 := rfl

/-- C10: for every attached strategy set, zone, state vector and time, the
zone's abundances and abundance-changes after `entropy_generation_rhs`'s
call operator returns equal their pre-call snapshots: the `evolve`
invocation inside the RHS call never durably changes the committed
composition. -/
theorem rhs_call_preserves_abundances (fns : RhsFunctions) (z : Zone)
    (x : Fin 3 → ℚ) (t : ℚ) :
    (entropy_generation_rhs_call fns z x t).1.abundances = z.abundances
    ∧ (entropy_generation_rhs_call fns z x t).1.abundanceChanges =
        z.abundanceChanges := ⟨rfl, rfl⟩

/-- `x_lim` (run_entropy.cpp:614): the component-specific floors
`{1e-10, 1, 1e-5}` below which the relative-change bound is not applied. -/
def xLim : Fin 3 → ℚ := ![1 / 10 ^ 10, 1, 1 / 10 ^ 5]

/-- One pass of the `Update timestep` for-loop body (run_entropy.cpp:
1069-1074) for component `i`:
`delta = fabs((x[i] - xold[i]) / x[i])`; when `delta > 0` and
`fabs(x[i]) > x_lim[i]`, lower the accumulator to
`min(d_h, D_X_REG_T * d_dt / delta)` with `D_X_REG_T = 0.15`. -/
def candStep (x xold : Fin 3 → ℚ) (dtOld : ℚ) (dh : ℚ) (i : Fin 3) : ℚ :=
  let delta := |(x i - xold i) / x i|
  if 0 < delta ∧ xLim i < |x i| then min dh (3 / 20 * dtOld / delta) else dh

/-- `d_h` after the for-loop over the three components, seeded with
`1.e99` (run_entropy.cpp:1068-1074). -/
def updateTimestepCandidate (x xold : Fin 3 → ℚ) (dtOld : ℚ) : ℚ :=
  candStep x xold dtOld
    (candStep x xold dtOld (candStep x xold dtOld (10 ^ 99) 0) 1) 2

/-- The step-size controller at the end of one loop iteration
(run_entropy.cpp:1068-1089): compute `d_h`; let
`Libnucnet__Zone__updateTimeStep` overwrite `d_dt` with the engine's
recommendation `recStep`; take `d_h` instead if the recommendation exceeds
it; then clamp to land on `TEND`: if `t + d_dt > tend` set
`d_dt = tend - t`. -/
def stepControllerNext (x xold : Fin 3 → ℚ) (dtOld recStep tend t : ℚ) :
    ℚ :=
  let d_h := updateTimestepCandidate x xold dtOld
  let d1 := recStep
  let d2 := if d1 > d_h then d_h else d1
  if t + d2 > tend then tend - t else d2

theorem stepControllerNext_eq_min (x xold : Fin 3 → ℚ)
    (dtOld recStep tend t : ℚ) :
    stepControllerNext x xold dtOld recStep tend t
      = min (min (updateTimestepCandidate x xold dtOld) recStep)
          (tend - t) := by
  unfold stepControllerNext
  dsimp only
  by_cases h1 : recStep > updateTimestepCandidate x xold dtOld
  · rw [if_pos h1, min_eq_left h1.le]
    by_cases h2 : t + updateTimestepCandidate x xold dtOld > tend
    · rw [if_pos h2, min_eq_right (by linarith)]
    · rw [if_neg h2, min_eq_left (by linarith)]
  · rw [if_neg h1, min_eq_right (not_lt.mp h1)]
    by_cases h2 : t + recStep > tend
    · rw [if_pos h2, min_eq_right (by linarith)]
    · rw [if_neg h2, min_eq_left (by linarith)]

theorem stepControllerNext_le (x xold : Fin 3 → ℚ)
    (dtOld recStep tend t : ℚ) :
    t + stepControllerNext x xold dtOld recStep tend t ≤ tend := by
  rw [stepControllerNext_eq_min]
  have h :=
    min_le_right (min (updateTimestepCandidate x xold dtOld) recStep)
      (tend - t)
  linarith

/-- The loop-relevant configuration options of `run_entropy` (general
options, run_entropy.cpp:344-386): the end time `TEND`, the dump frequency
`STEPS`, the `t9_guess` and `observe` toggles, plus the user parameter
set. -/
structure Config where
  params : Params
  tend : ℚ
  steps : ℕ
  t9_guess : Bool
  observe : Bool

/-- The opaque collaborators the loop invokes at iteration `n`:
`stepper.do_step` (boost odeint Adams-Bashforth over the RHS, an external
library, returning the updated state vector), the temperature root solve
`my_user::t9_function` (whose value comes from the engine's
`compute_1d_root`), the engine's recommended step written by
`Libnucnet__Zone__updateTimeStep`, and the driver's post-step `evolve`
call's effect on the composition. -/
structure Env where
  doStep : ℕ → (Fin 3 → ℚ) → ℚ → ℚ → (Fin 3 → ℚ)
  t9Solve : ℕ → ℚ
  recStep : ℕ → ℚ
  evolveStep : ℕ → List ℚ × List ℚ

/-- The driver's mutable state at the top of the `while` loop
(run_entropy.cpp:932): time `d_t`, step `d_dt`, state vector `x`, the saved
`xold`, the zone, the `d_t9_old` / `d_dt9dt` guess pair, the dump counter
`k`, the step counter `i_step`, the number of in-memory snapshot dumps
(`nnt::write_xml`, line 1051), the number of output-file writes
(`Libnucnet__writeToXmlFile`), and the iteration index used to address the
environment. -/
structure DriverState where
  t : ℚ
  dt : ℚ
  x : Fin 3 → ℚ
  xold : Fin 3 → ℚ
  zone : Zone
  t9old : ℚ
  dt9dt : ℚ
  k : ℕ
  i_step : ℕ
  dumps : ℕ
  fileWrites : ℕ
  n : ℕ

/-- One iteration of the `while ( d_t < TEND )` body
(run_entropy.cpp:932-1091), in source order: set the zone time; save `xold`;
`stepper.do_step` updates `x`; `d_t += d_dt`; push `DTIME`, `TIME`, `RHO`
(via `my_user::rho_function`; see `rho_function_ok`), `ENTROPY` into the
zone; if `t9_guess` push the extrapolated `T9` guess; push the solved `T9`;
if `t9_guess` update `d_dt9dt` and `d_t9_old`; run the driver's (durable)
`evolve`; store `x[0]`, `x[1]` as zone properties; dump a snapshot to the
in-memory output when `i_step++ % steps == 0` or `d_t >= TEND`
(`B_OUTPUT_EVERY_TIME_DUMP` is compiled `false`, run_entropy.cpp:95, so no
output-file write happens here); finally run the step-size controller. -/
def loopBody (cfg : Config) (env : Env) (s : DriverState) : DriverState :=
  let z0 := { s.zone with time := s.t }
  let xold := s.x
  let x1 := env.doStep s.n s.x s.t s.dt
  let t1 := s.t + s.dt
  let z1 := { z0 with dtime := s.dt, time := t1 }
  let z2 := { z1 with rho := rhoVal cfg.params x1 }
  let z3 := { z2 with entropy := x1 2 }
  let z4 :=
    if cfg.t9_guess then { z3 with t9 := s.t9old + s.dt9dt * s.dt } else z3
  let t9new := env.t9Solve s.n
  let z5 := { z4 with t9 := t9new }
  let dt9dt1 := if cfg.t9_guess then (t9new - s.t9old) / s.dt else s.dt9dt
  let t9old1 := if cfg.t9_guess then t9new else s.t9old
  let evolved := env.evolveStep s.n
  let z6 :=
    { z5 with abundances := evolved.1, abundanceChanges := evolved.2 }
  let z7 := { z6 with xProp0 := x1 0, xProp1 := x1 1 }
  let k1 := if s.i_step % cfg.steps = 0 ∨ cfg.tend ≤ t1 then s.k + 1 else s.k
  let dumps1 :=
    if s.i_step % cfg.steps = 0 ∨ cfg.tend ≤ t1 then s.dumps + 1 else s.dumps
  let i1 := s.i_step + 1
  let dt1 := stepControllerNext x1 xold s.dt (env.recStep s.n) cfg.tend t1
  { t := t1, dt := dt1, x := x1, xold := xold, zone := z7, t9old := t9old1,
    dt9dt := dt9dt1, k := k1, i_step := i1, dumps := dumps1,
    fileWrites := s.fileWrites, n := s.n + 1 }

/-- Fuel-indexed iteration of the guarded loop: apply `loopBody` while
`t < tend`, at most `fuel` times. -/
def iterLoop (cfg : Config) (env : Env) : ℕ → DriverState → DriverState
  | 0, s => s
  | fuel + 1, s =>
    if s.t < cfg.tend then iterLoop cfg env fuel (loopBody cfg env s) else s

/-- The whole driver tail: run the loop, then perform the single
unconditional `Libnucnet__writeToXmlFile` (run_entropy.cpp:1097). -/
def runDriver (cfg : Config) (env : Env) (fuel : ℕ) (s : DriverState) :
    DriverState :=
  let s1 := iterLoop cfg env fuel s
  { s1 with fileWrites := s1.fileWrites + 1 }

theorem iterLoop_frozen (cfg : Config) (env : Env) (n : ℕ)
    (s : DriverState) (h : ¬ s.t < cfg.tend) : iterLoop cfg env n s = s := by
  cases n with
  | zero => rfl
  | succ m => simp [iterLoop, h]

theorem iterLoop_succ' (cfg : Config) (env : Env) (n : ℕ)
    (s : DriverState) :
    iterLoop cfg env (n + 1) s =
      if (iterLoop cfg env n s).t < cfg.tend then
        loopBody cfg env (iterLoop cfg env n s)
      else iterLoop cfg env n s := by
  induction n generalizing s with
  | zero => simp [iterLoop]
  | succ m ih =>
    by_cases h : s.t < cfg.tend
    · rw [show iterLoop cfg env (m + 1 + 1) s
          = iterLoop cfg env (m + 1) (loopBody cfg env s) from by
            rw [iterLoop, if_pos h],
        show iterLoop cfg env (m + 1) s
          = iterLoop cfg env m (loopBody cfg env s) from by
            rw [iterLoop, if_pos h]]
      exact ih (loopBody cfg env s)
    · rw [iterLoop_frozen cfg env (m + 1 + 1) s h,
        iterLoop_frozen cfg env (m + 1) s h, if_neg h]

theorem loopBody_t (cfg : Config) (env : Env) (s : DriverState) :
    (loopBody cfg env s).t = s.t + s.dt := rfl

theorem loopBody_i_step (cfg : Config) (env : Env) (s : DriverState) :
    (loopBody cfg env s).i_step = s.i_step + 1 := rfl

theorem loopBody_fileWrites (cfg : Config) (env : Env) (s : DriverState) :
    (loopBody cfg env s).fileWrites = s.fileWrites := rfl

theorem loopBody_dt (cfg : Config) (env : Env) (s : DriverState) :
    (loopBody cfg env s).dt =
      stepControllerNext (env.doStep s.n s.x s.t s.dt) s.x s.dt
        (env.recStep s.n) cfg.tend (s.t + s.dt) := rfl

theorem iterLoop_fileWrites (cfg : Config) (env : Env) (n : ℕ)
    (s : DriverState) :
    (iterLoop cfg env n s).fileWrites = s.fileWrites := by
  induction n generalizing s with
  | zero => rfl
  | succ m ih =>
    rw [iterLoop]
    by_cases h : s.t < cfg.tend
    · rw [if_pos h, ih, loopBody_fileWrites]
    · rw [if_neg h]

/-- The driver's direct calls to `my_user::rho_function`
(run_entropy.cpp:978-981) always succeed with the closed-form density
(`rho_0` is stored in the map as a double), which is why `loopBody` stores
`rhoVal` in the zone. -/
theorem rho_function_ok (p : Params) (x : Fin 3 → ℚ) :
    rho_function p x = Except.ok (rhoVal p x) := rfl

/-- C2: at the end of every loop iteration the next step size equals the
minimum of (a) the per-component relative-change aggregate `d_h` (candidates
`0.15 * dt / delta_i` over the components with `|x[i]| > x_lim[i]` and
`delta_i > 0`, seeded with 1e99), (b) the engine's recommended step, and
(c) the terminal value `tend - t`; consequently after every iteration
`t + dt ≤ tend` — the controller never proposes a step beyond the end
time. -/
theorem next_dt_is_min_of_bounds (cfg : Config) (env : Env)
    (s : DriverState) :
    (loopBody cfg env s).dt
      = min
          (min (updateTimestepCandidate (env.doStep s.n s.x s.t s.dt) s.x
            s.dt) (env.recStep s.n))
          (cfg.tend - (s.t + s.dt))
    ∧ (loopBody cfg env s).t + (loopBody cfg env s).dt ≤ cfg.tend := by
  constructor
  · rw [loopBody_dt, stepControllerNext_eq_min]
  · rw [loopBody_t, loopBody_dt]
    exact stepControllerNext_le _ _ _ _ _ _

/-- C4 (amended): when the configured initial step overshoots
(`dtime > tend - t0`) there is no immediate clamp: the run performs exactly
one step, and that step ends at `t0 + dtime`, strictly beyond `tend`; the
terminal clamp only affects the step size proposed for the (never-taken)
next iteration. -/
theorem overshoot_single_step (cfg : Config) (env : Env) (s0 : DriverState)
    (fuel : ℕ) (h0 : s0.t < cfg.tend) (hover : cfg.tend - s0.t < s0.dt)
    (hf : 1 ≤ fuel) :
    (iterLoop cfg env fuel s0).t = s0.t + s0.dt
    ∧ (iterLoop cfg env fuel s0).i_step = s0.i_step + 1
    ∧ cfg.tend < (iterLoop cfg env fuel s0).t := by
  obtain ⟨m, rfl⟩ : ∃ m, fuel = m + 1 := ⟨fuel - 1, by omega⟩
  have hgt : cfg.tend < (loopBody cfg env s0).t := by
    rw [loopBody_t]; linarith
  have hstep : iterLoop cfg env (m + 1) s0 =
      iterLoop cfg env m (loopBody cfg env s0) := by
    rw [iterLoop, if_pos h0]
  rw [hstep, iterLoop_frozen cfg env m _ (not_lt.mpr hgt.le), loopBody_t,
    loopBody_i_step]
  exact ⟨rfl, rfl, by linarith⟩

/-- C5 (amended): the stepping loop performs no check on the sign of `x[0]`
anywhere: in a state with `x[0] ≤ 0` and `t < tend`, the loop takes the
next full step exactly as usual (advancing `t` by `dt` and the step counter
by one) — there is no abort and no step-rejection path in the body. -/
theorem loop_ignores_x0_sign (cfg : Config) (env : Env) (s : DriverState)
    (fuel : ℕ) (h1 : s.t < cfg.tend) (h2 : s.x 0 ≤ 0) (hf : 1 ≤ fuel) :
    iterLoop cfg env fuel s = iterLoop cfg env (fuel - 1) (loopBody cfg env s)
    ∧ (loopBody cfg env s).t = s.t + s.dt
    ∧ (loopBody cfg env s).i_step = s.i_step + 1 := by
  obtain ⟨m, rfl⟩ : ∃ m, fuel = m + 1 := ⟨fuel - 1, by omega⟩
  refine ⟨?_, rfl, rfl⟩
  rw [iterLoop, if_pos h1]
  simp

/-- Invariant of the loop: the time never passes `tend` (provided the
initial step does not overshoot), and while `t < tend` the pending step
keeps `t + dt ≤ tend` (the controller's terminal clamp). -/
theorem iterLoop_t_le (cfg : Config) (env : Env) (s0 : DriverState)
    (h0 : s0.t ≤ cfg.tend)
    (hno : s0.t < cfg.tend → s0.t + s0.dt ≤ cfg.tend) (n : ℕ) :
    (iterLoop cfg env n s0).t ≤ cfg.tend
    ∧ ((iterLoop cfg env n s0).t < cfg.tend →
        (iterLoop cfg env n s0).t + (iterLoop cfg env n s0).dt ≤
          cfg.tend) := by
  induction n with
  | zero => exact ⟨h0, hno⟩
  | succ m ih =>
    rw [iterLoop_succ']
    by_cases h : (iterLoop cfg env m s0).t < cfg.tend
    · rw [if_pos h]
      have h2 := ih.2 h
      refine ⟨by rw [loopBody_t]; linarith, fun _ => ?_⟩
      rw [loopBody_t, loopBody_dt]
      exact stepControllerNext_le _ _ _ _ _ _
    · rw [if_neg h]; exact ih

/-- Termination with exact landing: if the initial step is positive and
does not overshoot, and every controller-produced step size is at least
`min ε (tend - t)` for some fixed `ε > 0` (for the first `N` reached
states, with `N ε` covering the remaining span), then after at most `N + 1`
iterations the loop has exited with `t` exactly equal to `tend`. -/
theorem iterLoop_reaches_tend (cfg : Config) (env : Env)
    (s0 : DriverState) (ε : ℚ) (N : ℕ) (h0 : s0.t < cfg.tend)
    (hdt0 : 0 < s0.dt) (hno : s0.t + s0.dt ≤ cfg.tend) (hε : 0 < ε)
    (hN : cfg.tend - s0.t ≤ N * ε)
    (hb : ∀ n, n < N + 1 → 1 ≤ n →
      (iterLoop cfg env n s0).t < cfg.tend →
      min ε (cfg.tend - (iterLoop cfg env n s0).t) ≤
        (iterLoop cfg env n s0).dt) :
    (iterLoop cfg env (N + 1) s0).t = cfg.tend := by
  have key : ∀ k, k ≤ N →
      (iterLoop cfg env (k + 1) s0).t = cfg.tend
      ∨ ((iterLoop cfg env (k + 1) s0).t < cfg.tend
          ∧ s0.t + s0.dt + k * ε ≤ (iterLoop cfg env (k + 1) s0).t) := by
    intro k
    induction k with
    | zero =>
      intro _
      have h1 : iterLoop cfg env 1 s0 = loopBody cfg env s0 := by
        rw [iterLoop, if_pos h0, iterLoop]
      rcases eq_or_lt_of_le hno with he | hlt
      · exact Or.inl (by rw [h1, loopBody_t, ← he])
      · refine Or.inr ⟨by rw [h1, loopBody_t]; exact hlt, ?_⟩
        rw [h1, loopBody_t]
        push_cast
        linarith
    | succ m ih =>
      intro hm
      rcases ih (by omega) with he | ⟨hlt, hge⟩
      · left
        rw [iterLoop_succ', if_neg (by rw [he]; exact lt_irrefl _)]
        exact he
      · have hbm := hb (m + 1) (by omega) (by omega) hlt
        have hsum2 : (iterLoop cfg env (m + 1) s0).t +
            (iterLoop cfg env (m + 1) s0).dt ≤ cfg.tend :=
          (iterLoop_t_le cfg env s0 h0.le (fun _ => hno) (m + 1)).2 hlt
        rw [iterLoop_succ', if_pos hlt, loopBody_t]
        rcases le_total ε (cfg.tend - (iterLoop cfg env (m + 1) s0).t)
          with hc | hc
        · have hdt : ε ≤ (iterLoop cfg env (m + 1) s0).dt := by
            rw [min_eq_left hc] at hbm; exact hbm
          rcases eq_or_lt_of_le hsum2 with he2 | hlt2
          · exact Or.inl he2
          · refine Or.inr ⟨hlt2, ?_⟩
            push_cast
            linarith
        · have hdt : cfg.tend - (iterLoop cfg env (m + 1) s0).t ≤
              (iterLoop cfg env (m + 1) s0).dt := by
            rw [min_eq_right hc] at hbm; exact hbm
          left
          linarith
  rcases key N le_rfl with he | ⟨hlt, hge⟩
  · exact he
  · exfalso
    have : cfg.tend < (iterLoop cfg env (N + 1) s0).t := by
      linarith
    linarith

/-- C6 (amended): if the initial time is before `tend`, the initial step is
positive and does not overshoot, and every controller-produced step size is
bounded below by `min ε (tend - t)` for a fixed `ε > 0` with `N ε` covering
the span, then the loop exits within `N + 1` iterations with `t` exactly
equal to `tend`; the loop itself never writes the output file
(`B_OUTPUT_EVERY_TIME_DUMP` is compiled false), and the driver performs
exactly one unconditional output-file write after the loop. -/
theorem driver_terminates_exactly (cfg : Config) (env : Env)
    (s0 : DriverState) (ε : ℚ) (N : ℕ) (h0 : s0.t < cfg.tend)
    (hdt0 : 0 < s0.dt) (hno : s0.t + s0.dt ≤ cfg.tend) (hε : 0 < ε)
    (hN : cfg.tend - s0.t ≤ N * ε)
    (hb : ∀ n, n < N + 1 → 1 ≤ n →
      (iterLoop cfg env n s0).t < cfg.tend →
      min ε (cfg.tend - (iterLoop cfg env n s0).t) ≤
        (iterLoop cfg env n s0).dt) :
    (iterLoop cfg env (N + 1) s0).t = cfg.tend
    ∧ (iterLoop cfg env (N + 1) s0).fileWrites = s0.fileWrites
    ∧ (runDriver cfg env (N + 1) s0).fileWrites = s0.fileWrites + 1 :=
  ⟨iterLoop_reaches_tend cfg env s0 ε N h0 hdt0 hno hε hN hb,
   iterLoop_fileWrites cfg env (N + 1) s0,
   by
    rw [show (runDriver cfg env (N + 1) s0).fileWrites =
        (iterLoop cfg env (N + 1) s0).fileWrites + 1 from rfl,
      iterLoop_fileWrites]⟩

/-- The zone as concretely initialized (run_entropy.cpp:893-907): T9 = 10,
everything else zeroed, empty composition. -/
def zone0 : Zone :=
  { t9 := 10, time := 0, dtime := 0, rho := 0, entropy := 0, xProp0 := 0,
    xProp1 := 0, abundances := [], abundanceChanges := [] }

/-- A concrete driver state at time `t` with pending step `dt` and state
vector `x`. -/
def mkState (t dt : ℚ) (x : Fin 3 → ℚ) : DriverState :=
  { t := t, dt := dt, x := x, xold := x, zone := zone0, t9old := 10,
    dt9dt := 0, k := 0, i_step := 0, dumps := 0, fileWrites := 0, n := 0 }

/-- A benign concrete environment: the stepper returns the state vector
unchanged, the temperature solve returns 10, the engine recommends a unit
step, and evolve keeps the empty composition. -/
def envId : Env :=
  { doStep := fun _ x _ _ => x, t9Solve := fun _ => 10,
    recStep := fun _ => 1, evolveStep := fun _ => ([], []) }

/-- An environment whose (opaque, external) stepper result drives `x[0]`
nonpositive on the first step. -/
def envBad : Env :=
  { doStep := fun n x _ _ => if n = 0 then ![(-1 : ℚ), 0, 10] else x,
    t9Solve := fun _ => 10, recStep := fun _ => 1,
    evolveStep := fun _ => ([], []) }

/-- Configuration with `TEND = 10` and the default dump frequency 20. -/
def cfg10 : Config :=
  { params := defaultParams, tend := 10, steps := 20, t9_guess := true,
    observe := false }

/-- Configuration with `TEND = 5`. -/
def cfg5 : Config :=
  { params := defaultParams, tend := 5, steps := 20, t9_guess := true,
    observe := false }

/-- Configuration with `TEND = 3`. -/
def cfg3 : Config :=
  { params := defaultParams, tend := 3, steps := 20, t9_guess := true,
    observe := false }

/-- C4 counterexample: with `t0 = 0`, `tend = 10` and configured initial
step `dtime = 20 > tend - t0`, the run performs exactly one step, but that
step ends at `t = 20`, not at `tend = 10`: the driver does not clamp the
oversized initial step before using it. -/
theorem overshoot_counterexample :
    (iterLoop cfg10 envId 3 (mkState 0 20 (stX 1))).i_step = 1
    ∧ (iterLoop cfg10 envId 3 (mkState 0 20 (stX 1))).t = 20
    ∧ (iterLoop cfg10 envId 3 (mkState 0 20 (stX 1))).t ≠ cfg10.tend := by
  norm_num [iterLoop, loopBody, mkState, cfg10, envId, zone0,
    stepControllerNext, updateTimestepCandidate, candStep, stX, xLim,
    rhoVal, defaultParams, min_def]

/-- Witness for C4's amended theorem: from `t0 = 1` with `dtime = 15 >
tend - t0 = 9`, one step is taken and it lands on `t = 16`. -/
theorem overshoot_single_step_witness :
    (iterLoop cfg10 envId 2 (mkState 1 15 (stX 1))).t = 16
    ∧ (iterLoop cfg10 envId 2 (mkState 1 15 (stX 1))).i_step = 1 := by
  have h := overshoot_single_step cfg10 envId (mkState 1 15 (stX 1)) 2
    (by norm_num [mkState, cfg10]) (by norm_num [mkState, cfg10])
    (by norm_num)
  refine ⟨?_, ?_⟩
  · rw [h.1]; norm_num [mkState]
  · rw [h.2.1]; norm_num [mkState]

/-- C5 counterexample: under an admissible environment (the stepper and
engine are opaque collaborators), the state reached after one step has
`x[0] = -1 ≤ 0` while `t` is still far from `tend`, and the loop simply
continues — it takes a second step (the step counter reaches 2, the time
advances again) instead of aborting or rejecting. -/
theorem x0_violation_continues :
    (iterLoop cfg10 envBad 1 (mkState 0 1 (stX 1))).x 0 = -1
    ∧ (iterLoop cfg10 envBad 1 (mkState 0 1 (stX 1))).t < cfg10.tend
    ∧ (iterLoop cfg10 envBad 2 (mkState 0 1 (stX 1))).i_step = 2
    ∧ (iterLoop cfg10 envBad 2 (mkState 0 1 (stX 1))).t = 43 / 40 := by
  norm_num [iterLoop, loopBody, mkState, cfg10, envBad, zone0,
    stepControllerNext, updateTimestepCandidate, candStep, stX, xLim,
    rhoVal, defaultParams, min_def]

/-- Witness for C5's amended theorem: in a state with `x[0] = -1` the loop
body still advances the time and the step counter as usual. -/
theorem loop_ignores_x0_sign_witness :
    (mkState 1 1 ![(-1 : ℚ), 0, 10]).x 0 ≤ 0
    ∧ (loopBody cfg10 envBad (mkState 1 1 ![(-1 : ℚ), 0, 10])).t = 2
    ∧ (loopBody cfg10 envBad (mkState 1 1 ![(-1 : ℚ), 0, 10])).i_step
        = 1 := by
  have h := loop_ignores_x0_sign cfg10 envBad
    (mkState 1 1 ![(-1 : ℚ), 0, 10]) 1 (by norm_num [mkState, cfg10])
    (by norm_num [mkState]) le_rfl
  refine ⟨by norm_num [mkState], ?_, ?_⟩
  · rw [h.2.1]; norm_num [mkState]
  · rw [h.2.2]; norm_num [mkState]

/-- C6 counterexample: with `t0 = 0`, `tend = 5` and initial step
`dtime = 12` (positive, configuration valid per the claim's hypotheses),
the loop terminates, but the final time is `12`, not exactly `tend = 5`:
the "lands exactly on `t_end`" part fails when the first step
overshoots. -/
theorem exact_landing_counterexample :
    (iterLoop cfg5 envId 2 (mkState 0 12 (stX 1))).t = 12
    ∧ (iterLoop cfg5 envId 2 (mkState 0 12 (stX 1))).t ≠ cfg5.tend := by
  norm_num [iterLoop, loopBody, mkState, cfg5, envId, zone0,
    stepControllerNext, updateTimestepCandidate, candStep, stX, xLim,
    rhoVal, defaultParams, min_def]

/-- Witness for C6's amended theorem: from `t0 = 0`, `dt0 = 1`, `tend = 3`
with unit engine recommendations, the loop lands exactly on `t = 3` within
4 iterations and the driver writes the output file exactly once. -/
theorem driver_terminates_exactly_witness :
    (iterLoop cfg3 envId 4 (mkState 0 1 (stX 1))).t = cfg3.tend
    ∧ (runDriver cfg3 envId 4 (mkState 0 1 (stX 1))).fileWrites = 1 := by
  have h := driver_terminates_exactly cfg3 envId (mkState 0 1 (stX 1)) 1 3
    (by norm_num [mkState, cfg3]) (by norm_num [mkState])
    (by norm_num [mkState, cfg3]) (by norm_num)
    (by norm_num [mkState, cfg3])
    (by
      intro n hn h1 hlt
      interval_cases n <;>
        norm_num [iterLoop, loopBody, mkState, cfg3, envId, zone0,
          stepControllerNext, updateTimestepCandidate, candStep, stX, xLim,
          rhoVal, defaultParams, min_def] at hlt ⊢)
  refine ⟨h.1, ?_⟩
  rw [h.2.2]
  norm_num [mkState]

end EntropyNet
